import Mathlib

/-!
# Verification of the RnWmFetchZsdt export/upload pipeline

Shallow embedding of the repository's core components:

* `ZstdModule` (Kotlin native module): compression level clamping and the
  compression-ratio computation;
* `DataExportService` / `BackgroundSyncService` (TypeScript): JSON export,
  delivery over HTTP, the manual-sync and periodic-sync paths, and the
  background scheduler state machine;
* `MinioUploadService.getAwsSignature`: the from-scratch AWS Signature
  Version 4 computation, together with a fully executable SHA-256 / HMAC-SHA256
  implementation and the ISO-8601 timestamp rendering used for `dateStamp`,
  `amzDate` and generated file names.

JavaScript/Kotlin machine doubles are modelled as exact rationals extended
with infinities and NaN (`JsNum`); machine integers are modelled as `Int`
(none of the modelled quantities can overflow a 64-bit double's integer
range in the scenarios considered); byte strings are `List Nat` with each
element < 256.
-/

namespace Zsdt

/-! ## Bytes, UTF-8 and hex -/

/-- Modulus for 32-bit words. -/
def M32 : Nat := 4294967296

/-- UTF-8 encoding of a single Unicode scalar value. -/
def encodeChar (c : Char) : List Nat :=
  let n := c.toNat
  if n < 128 then [n]
  else if n < 2048 then [192 ||| (n >>> 6), 128 ||| (n &&& 63)]
  else if n < 65536 then
    [224 ||| (n >>> 12), 128 ||| ((n >>> 6) &&& 63), 128 ||| (n &&& 63)]
  else
    [240 ||| (n >>> 18), 128 ||| ((n >>> 12) &&& 63),
     128 ||| ((n >>> 6) &&& 63), 128 ||| (n &&& 63)]

/-- UTF-8 bytes of a string. -/
def utf8Bytes (s : String) : List Nat :=
  s.data.foldr (fun c acc => encodeChar c ++ acc) []

/-- UTF-8 byte length of a string; this is what `new Blob([s]).size`
computes in the JavaScript sources. -/
def blobSize (s : String) : Nat := (utf8Bytes s).length

/-- Lower-case hex digit for `n < 16`. -/
def hexDigit (n : Nat) : Char :=
  if n < 10 then Char.ofNat (48 + n) else Char.ofNat (87 + n)

/-- Lower-case hex rendering of a byte list. -/
def hexOfBytes (bs : List Nat) : String :=
  String.mk (bs.foldr (fun b acc => hexDigit (b / 16) :: hexDigit (b % 16) :: acc) [])

/-- Big-endian byte rendering of `v` in `n` bytes. -/
def beBytes (n v : Nat) : List Nat :=
  match n with
  | 0 => []
  | m + 1 => (v >>> (8 * m)) % 256 :: beBytes m v

/-- Big-endian 32-bit word from four bytes (the inverse of `beBytes 4`). -/
def wordOfBytes (bs : List Nat) : Nat :=
  bs.foldl (fun acc b => acc * 256 + b) 0

/-! ## SHA-256 (FIPS 180-4), executable over byte lists -/

/-- Right rotation of a 32-bit word. -/
def rotr32 (n x : Nat) : Nat :=
  ((x >>> n) ||| (x <<< (32 - n))) % M32

def sSig0 (x : Nat) : Nat := (rotr32 7 x) ^^^ (rotr32 18 x) ^^^ (x >>> 3)

def sSig1 (x : Nat) : Nat := (rotr32 17 x) ^^^ (rotr32 19 x) ^^^ (x >>> 10)

def bSig0 (x : Nat) : Nat := (rotr32 2 x) ^^^ (rotr32 13 x) ^^^ (rotr32 22 x)

def bSig1 (x : Nat) : Nat := (rotr32 6 x) ^^^ (rotr32 11 x) ^^^ (rotr32 25 x)

/-- The SHA-256 round constants (FIPS 180-4; written in decimal). -/
def K256 : List Nat :=
  [1116352408, 1899447441, 3049323471, 3921009573, 961987163,
   1508970993, 2453635748, 2870763221, 3624381080, 310598401,
   607225278, 1426881987, 1925078388, 2162078206, 2614888103,
   3248222580, 3835390401, 4022224774, 264347078, 604807628,
   770255983, 1249150122, 1555081692, 1996064986, 2554220882,
   2821834349, 2952996808, 3210313671, 3336571891, 3584528711,
   113926993, 338241895, 666307205, 773529912, 1294757372,
   1396182291, 1695183700, 1986661051, 2177026350, 2456956037,
   2730485921, 2820302411, 3259730800, 3345764771, 3516065817,
   3600352804, 4094571909, 275423344, 430227734, 506948616,
   659060556, 883997877, 958139571, 1322822218, 1537002063,
   1747873779, 1955562222, 2024104815, 2227730452, 2361852424,
   2428436474, 2756734187, 3204031479, 3329325298]

/-- The SHA-256 initial hash value (decimal). -/
def H256 : List Nat :=
  [1779033703, 3144134277, 1013904242, 2773480762,
   1359893119, 2600822924, 528734635, 1541459225]

/-- Split the 64 bytes of a block into sixteen 32-bit big-endian words. -/
def blockWords (block : List Nat) : List Nat :=
  match block with
  | b0 :: b1 :: b2 :: b3 :: rest => wordOfBytes [b0, b1, b2, b3] :: blockWords rest
  | _ => []

/-- Extend sixteen schedule words to sixty-four. -/
def msgSchedule (w16 : List Nat) : List Nat :=
  (List.range 48).foldl
    (fun w _ =>
      let n := w.length
      let x := (sSig1 (w.getD (n - 2) 0) + w.getD (n - 7) 0
        + sSig0 (w.getD (n - 15) 0) + w.getD (n - 16) 0) % M32
      w ++ [x])
    w16

/-- One SHA-256 compression round. -/
def sha256Round (s : Nat × Nat × Nat × Nat × Nat × Nat × Nat × Nat) (kw : Nat × Nat) :
    Nat × Nat × Nat × Nat × Nat × Nat × Nat × Nat :=
  let (a, b, c, d, e, f, g, h) := s
  let ch := (e &&& f) ^^^ ((e ^^^ (M32 - 1)) &&& g)
  let maj := (a &&& b) ^^^ (a &&& c) ^^^ (b &&& c)
  let t1 := (h + bSig1 e + ch + kw.1 + kw.2) % M32
  let t2 := (bSig0 a + maj) % M32
  ((t1 + t2) % M32, a, b, c, (d + t1) % M32, e, f, g)

/-- Process one 64-byte block. -/
def sha256Block (hs : List Nat) (block : List Nat) : List Nat :=
  match hs with
  | [h0, h1, h2, h3, h4, h5, h6, h7] =>
    let w := msgSchedule (blockWords block)
    let (a, b, c, d, e, f, g, h) :=
      (K256.zip w).foldl sha256Round (h0, h1, h2, h3, h4, h5, h6, h7)
    [(h0 + a) % M32, (h1 + b) % M32, (h2 + c) % M32, (h3 + d) % M32,
     (h4 + e) % M32, (h5 + f) % M32, (h6 + g) % M32, (h7 + h) % M32]
  | _ => hs

/-- SHA-256 padding: append `0x80`, zeros, then the 64-bit bit length. -/
def sha256Pad (msg : List Nat) : List Nat :=
  let len := msg.length
  let k := (64 + 56 - (len + 1) % 64) % 64
  msg ++ [128] ++ List.replicate k 0 ++ beBytes 8 (len * 8)

/-- Split a byte list into 64-byte chunks (fuel-based structural recursion;
`fuel = l.length` always suffices since each step consumes 64 bytes). -/
def chunks64Aux : Nat → List Nat → List (List Nat)
  | 0, _ => []
  | _, [] => []
  | fuel + 1, l => l.take 64 :: chunks64Aux fuel (l.drop 64)

/-- Split a byte list into 64-byte chunks. -/
def chunks64 (l : List Nat) : List (List Nat) := chunks64Aux l.length l

/-- SHA-256 digest (32 bytes) of a byte list. -/
def sha256 (msg : List Nat) : List Nat :=
  ((chunks64 (sha256Pad msg)).foldl sha256Block H256).foldr
    (fun w acc => beBytes 4 w ++ acc) []

/-- Lower-case hex SHA-256 digest. -/
def sha256Hex (msg : List Nat) : String := hexOfBytes (sha256 msg)

/-- HMAC-SHA256 with byte-list key and message (RFC 2104). -/
def hmacSha256 (key msg : List Nat) : List Nat :=
  let k0 := if key.length > 64 then sha256 key else key
  let k := k0 ++ List.replicate (64 - k0.length) 0
  sha256 ((k.map (· ^^^ 0x5c)) ++ sha256 ((k.map (· ^^^ 0x36)) ++ msg))

/-! ## `Date.prototype.toISOString`

The sources call `new Date().toISOString()` to derive file names and the
SigV4 `dateStamp`/`amzDate`.  We model the clock instant as a `Nat` of
milliseconds since the Unix epoch and render the ISO-8601 string with the
standard civil-from-days conversion (the calendar arithmetic below follows
the usual era-based formulation of the proleptic Gregorian calendar).
The model covers the four-digit-year range of the format
(1970-01-01 .. 9999-12-31); ECMAScript switches to the expanded
`±YYYYYY` form outside it. -/

def msPerDay : Nat := 86400000

/-- Days since the civil epoch 0000-03-01 for a day number `z`
(days since 1970-01-01). -/
def civilShift (z : Nat) : Nat := z + 719468

/-- 400-year era index. -/
def eraOf (z : Nat) : Nat := civilShift z / 146097

/-- Day-of-era, in `[0, 146097)`. -/
def doeOf (z : Nat) : Nat := civilShift z % 146097

/-- Day-of-era on which era year `y` starts (era years run
March..February; valid for `y < 400`, where the 400-year leap day needs
no correction term). -/
def yearStart (y : Nat) : Nat := 365 * y + y / 4 - y / 100

/-- Largest era year `≤ y` whose start is `≤ doe` (linear search from
`y` down). -/
def yoeSearch : Nat → Nat → Nat
  | 0, _ => 0
  | y + 1, doe => if yearStart (y + 1) ≤ doe then y + 1 else yoeSearch y doe

/-- Year-of-era, in `[0, 400)`: the era year whose span contains `doe`. -/
def yoeOf (z : Nat) : Nat := yoeSearch 399 (doeOf z)

/-- Days from the start of era year `y` back to era year 0 (valid for
arbitrary `y`, including whole eras). -/
def eraDays (y : Nat) : Nat := 365 * y + y / 4 - y / 100 + y / 400

/-- Day-of-(era-)year, in `[0, 366)`, 0 = March 1st. -/
def doyOf (z : Nat) : Nat := doeOf z - yearStart (yoeOf z)

/-- Era month index: 0 = March, ..., 11 = February. -/
def mpOf (z : Nat) : Nat := (5 * doyOf z + 2) / 153

/-- First day-of-year of era month `mp`. -/
def monthStart (mp : Nat) : Nat := (153 * mp + 2) / 5

/-- Day of month, 1-based. -/
def dayOf (z : Nat) : Nat := doyOf z - monthStart (mpOf z) + 1

/-- Civil month (1 = January .. 12 = December). -/
def monthOf (z : Nat) : Nat := if mpOf z < 10 then mpOf z + 3 else mpOf z - 9

/-- Era year (shifted: January/February belong to the previous era year). -/
def yStarOf (z : Nat) : Nat := yoeOf z + 400 * eraOf z

/-- Civil year. -/
def yearOf (z : Nat) : Nat := yStarOf z + (if 10 ≤ mpOf z then 1 else 0)

/-- UTC hour of a millisecond timestamp. -/
def hourOf (t : Nat) : Nat := t % 86400000 / 3600000

/-- UTC minute. -/
def minuteOf (t : Nat) : Nat := t % 3600000 / 60000

/-- UTC second. -/
def secondOf (t : Nat) : Nat := t % 60000 / 1000

/-- UTC millisecond. -/
def millisOf (t : Nat) : Nat := t % 1000

/-- Decimal digit character. -/
def decChar (d : Nat) : Char := Char.ofNat (48 + d)

/-- Fixed-width decimal rendering (`k` digits, leading zeros). -/
def padDigits : Nat → Nat → List Char
  | 0, _ => []
  | k + 1, n => decChar (n / 10 ^ k) :: padDigits k (n % 10 ^ k)

/-- First millisecond (exclusive bound) outside the four-digit-year range
of `toISOString`, i.e. the millisecond count of 10000-01-01T00:00:00Z. -/
def isoMsLimit : Nat := 253402300800000

/-- The character list of `toISOString t`:
`YYYY-MM-DDTHH:MM:SS.mmmZ`. -/
def isoChars (t : Nat) : List Char :=
  let z := t / msPerDay
  padDigits 4 (yearOf z) ++ '-' :: padDigits 2 (monthOf z) ++ '-' :: padDigits 2 (dayOf z)
    ++ 'T' :: padDigits 2 (hourOf t) ++ ':' :: padDigits 2 (minuteOf t)
    ++ ':' :: padDigits 2 (secondOf t) ++ '.' :: padDigits 3 (millisOf t) ++ ['Z']

/-- `new Date(t).toISOString()`. -/
def toISOString (t : Nat) : String := String.mk (isoChars t)

/-! ## `MinioUploadService.generateFileName`

`const timestamp = new Date().toISOString().replace(/[:.]/g, '-');
 return MOD products-$\x7btimestamp\x7d.zstd MOD;`  (template literal). -/

/-- `s.replace(/[:.]/g, '-')`: a global single-character-class replace is a
character-wise map. -/
def replaceColonDot (s : String) : String :=
  String.mk (s.data.map fun c => if c = ':' ∨ c = '.' then '-' else c)

/-- `MinioUploadService.generateFileName`, with the clock instant made
explicit. -/
def generateFileName (t : Nat) : String :=
  "products-" ++ replaceColonDot (toISOString t) ++ ".zstd"

/-! ## JavaScript / JVM doubles

`JsNum` models an IEEE-754 double as an exact rational extended with the
infinities and NaN.  Division by zero follows IEEE semantics exactly
(`0/0 = NaN`, `x/0 = ±Infinity`); a nonzero division is modelled by the
exact rational quotient (a real double rounds it, which none of the claims
below depend on beyond the zero case). -/

inductive JsNum where
  | num : ℚ → JsNum
  | inf : JsNum
  | negInf : JsNum
  | nan : JsNum
deriving DecidableEq

/-- IEEE division of two integers as doubles. -/
def jsDiv (a b : Int) : JsNum :=
  if b = 0 then
    if a = 0 then .nan else if 0 < a then .inf else .negInf
  else .num ((a : ℚ) / (b : ℚ))

/-- IEEE multiplication by the positive constant 100. -/
def jsMul100 : JsNum → JsNum
  | .num q => .num (q * 100)
  | .inf => .inf
  | .negInf => .negInf
  | .nan => .nan

/-! ## `ZstdModule` (Kotlin native module)

`src/unnamed/part_002`: wraps `com.github.luben.zstd.Zstd` and
`android.util.Base64`.  The wrapped library calls are external
collaborators and enter the model as an environment of oracles. -/

/-- External collaborators of the Kotlin `ZstdModule`. -/
structure NativeEnv where
  /-- `Zstd.compress(bytes, level)`; may throw (modelled as `Except`). -/
  zstd : List Nat → Int → Except String (List Nat)
  /-- `Base64.decode(data, Base64.DEFAULT)`; throws on malformed input. -/
  b64decode : String → Except String (List Nat)
  /-- `Base64.encodeToString(bytes, Base64.NO_WRAP)`. -/
  b64encode : List Nat → String

namespace ZstdModule

/-- `val level = if (compressionLevel in 1..22) compressionLevel else 3` -/
def clampLevel (l : Int) : Int := if 1 ≤ l ∧ l ≤ 22 then l else 3

/-- `ZstdModule.compress`: base64-decode, compress at the clamped level,
base64-encode; any exception rejects the promise with `COMPRESSION_ERROR`. -/
def compress (env : NativeEnv) (data : String) (compressionLevel : Int) :
    Except String String :=
  match env.b64decode data with
  | .error e => .error ("COMPRESSION_ERROR: Failed to compress data: " ++ e)
  | .ok inputBytes =>
    match env.zstd inputBytes (clampLevel compressionLevel) with
    | .error e => .error ("COMPRESSION_ERROR: Failed to compress data: " ++ e)
    | .ok compressedBytes => .ok (env.b64encode compressedBytes)

/-- `ZstdModule.compressString`: UTF-8 encode, compress at the clamped
level, base64-encode. -/
def compressString (env : NativeEnv) (data : String) (compressionLevel : Int) :
    Except String String :=
  match env.zstd (utf8Bytes data) (clampLevel compressionLevel) with
  | .error e => .error ("COMPRESSION_ERROR: Failed to compress string: " ++ e)
  | .ok compressedBytes => .ok (env.b64encode compressedBytes)

/-- `ZstdModule.getCompressionRatio`:
`val ratio = (compressedSize.toDouble() / originalSize.toDouble()) * 100;
promise.resolve(ratio)`.  The division itself never throws on the JVM, so
the `catch` branch is unreachable and the promise always resolves. -/
def getCompressionRatio (originalSize compressedSize : Int) : Except String JsNum :=
  .ok (jsMul100 (jsDiv compressedSize originalSize))

end ZstdModule

/-- The ratio expression of `MinioUploadService.compressAndUpload`
(`const ratio = (compressedSize / originalSize) * 100`), the JavaScript
twin of `ZstdModule.getCompressionRatio`. -/
def compressAndUploadRatio (originalSize compressedSize : Int) : JsNum :=
  jsMul100 (jsDiv compressedSize originalSize)

/-! ## Product records and their JSON serialization

`Product` (WatermelonDB model): string fields plus `created_at`/`updated_at`
date fields, modelled as epoch milliseconds.  `JSON.stringify` of the plain
objects built in `exportProductsToZstd` serializes the fields in insertion
order; its string escaping is modelled character-wise below. -/

structure Product where
  id : String
  skuid : String
  barcode_pos : String
  product_name : String
  merchant_id : String
  status : String
  createdAt : Nat
  updatedAt : Nat

/-- `JSON.stringify` escaping of one character. -/
def jsonEscapeChar (c : Char) : List Char :=
  if c = '"' then ['\\', '"']
  else if c = '\\' then ['\\', '\\']
  else if c = '\x08' then ['\\', 'b']
  else if c = '\x0c' then ['\\', 'f']
  else if c = '\n' then ['\\', 'n']
  else if c = '\r' then ['\\', 'r']
  else if c = '\t' then ['\\', 't']
  else if c.toNat < 32 then
    ['\\', 'u', '0', '0', hexDigit (c.toNat / 16), hexDigit (c.toNat % 16)]
  else [c]

/-- `JSON.stringify` of a string value. -/
def jsonStr (s : String) : String :=
  "\"" ++ String.mk (s.data.foldr (fun c acc => jsonEscapeChar c ++ acc) []) ++ "\""

/-- The plain object built from one product in
`exportProductsToZstd`/`compressProductsToZstd`, serialized by
`JSON.stringify` (keys in insertion order). -/
def productJson (p : Product) : String :=
  "\x7b\"id\":" ++ jsonStr p.id
    ++ ",\"skuid\":" ++ jsonStr p.skuid
    ++ ",\"barcode_pos\":" ++ jsonStr p.barcode_pos
    ++ ",\"product_name\":" ++ jsonStr p.product_name
    ++ ",\"merchant_id\":" ++ jsonStr p.merchant_id
    ++ ",\"status\":" ++ jsonStr p.status
    ++ ",\"created_at\":" ++ jsonStr (toISOString p.createdAt)
    ++ ",\"updated_at\":" ++ jsonStr (toISOString p.updatedAt)
    ++ "\x7d"

/-- `JSON.stringify(productsData)`: the serialized export snapshot. -/
def serializeProducts (ps : List Product) : String :=
  "[" ++ String.intercalate "," (ps.map productJson) ++ "]"

/-! ## `DataExportService` pipeline

External collaborators (native codec promise, NetInfo connectivity, the
HTTP target) enter as an environment; the pipeline emits an event trace
recording the externally visible actions. -/

/-- The HTTP target's behaviour for the one POST the pipeline issues. -/
structure HttpResponse where
  /-- HTTP status code; `response.ok` is `200 ≤ status ≤ 299`. -/
  status : Nat
  /-- whether `response.json()` succeeds on the body. -/
  jsonParses : Bool

structure PipelineEnv where
  /-- `ZstdModule.compressString` (native promise). -/
  zstdString : String → Int → Except String String
  /-- `NetInfo.fetch().isConnected`. -/
  isConnected : Bool
  /-- the delivery target's response. -/
  response : HttpResponse

/-- Externally visible actions of a pipeline / scheduler run. -/
inductive Event where
  /-- the HTTP POST of `sendToExternalAPI` was issued to this URL. -/
  | fetchPost (url : String)
  /-- `BackgroundFetch.finish(taskId)` was signalled. -/
  | finish (taskId : String)
deriving DecidableEq

/-- `DataExportService.exportAndUpload`'s structured result object. -/
structure ExportResult where
  success : Bool
  compressedSize : Nat
  originalSize : Nat
  compressionRatio : JsNum
  recordCount : Nat
  error : Option String
deriving DecidableEq

namespace DataExportService

/-- `DataExportService.exportProductsToZstd` (the record store's contents
are the `store` argument): serialize, measure, compress; any failure is
wrapped as `Export failed:` and re-thrown. -/
def exportProductsToZstd (env : PipelineEnv) (store : List Product)
    (compressionLevel : Int) : Except String (String × Nat) :=
  let jsonString := serializeProducts store
  let originalSize := blobSize jsonString
  match env.zstdString jsonString compressionLevel with
  | .error e => .error ("Export failed: " ++ e)
  | .ok compressedBase64 => .ok (compressedBase64, originalSize)

/-- `DataExportService.sendToExternalAPI`: connectivity check, POST, status
check, JSON parse of the response body; failures are wrapped as
`API send failed:`.  The event trace records whether the POST was issued. -/
def sendToExternalAPI (env : PipelineEnv) (apiUrl : String) :
    Except String Unit × List Event :=
  if env.isConnected = false then
    (.error "API send failed: Error: No network connection", [])
  else if 200 ≤ env.response.status ∧ env.response.status ≤ 299 then
    if env.response.jsonParses then ((.ok (), [.fetchPost apiUrl]))
    else (.error "API send failed: SyntaxError: Unexpected end of JSON input",
      [.fetchPost apiUrl])
  else
    (.error ("API send failed: Error: HTTP error! status: "
        ++ toString env.response.status),
      [.fetchPost apiUrl])

/-- `DataExportService.exportAndUpload`: the complete pipeline; every
failure is caught and converted into a `success := false` result. -/
def exportAndUpload (env : PipelineEnv) (store : List Product) (apiUrl : String)
    (compressionLevel : Int) : ExportResult × List Event :=
  match exportProductsToZstd env store compressionLevel with
  | .error e =>
    ({ success := false, compressedSize := 0, originalSize := 0,
       compressionRatio := .num 0, recordCount := 0, error := some e }, [])
  | .ok (compressed, originalSize) =>
    let compressedSize := blobSize compressed
    let ratio := jsMul100 (jsDiv compressedSize originalSize)
    match sendToExternalAPI env apiUrl with
    | (.error e, ev) =>
      ({ success := false, compressedSize := 0, originalSize := 0,
         compressionRatio := .num 0, recordCount := 0, error := some e }, ev)
    | (.ok (), ev) =>
      ({ success := true, compressedSize := compressedSize,
         originalSize := originalSize, compressionRatio := ratio,
         recordCount := store.length, error := none }, ev)

end DataExportService

/-! ## `BackgroundSyncService` scheduler -/

/-- `BackgroundTaskConfig`. -/
structure BackgroundTaskConfig where
  apiUrl : String
  taskId : String
  minimumFetchInterval : Nat
  compressionLevel : Option Int
  stopOnTerminate : Option Bool
  startOnBoot : Option Bool
deriving DecidableEq

/-- Combined state of the service (`isConfigured` flag) and the host
background-execution facility (the one active registration and the task
ids passed to `scheduleTask`). -/
structure SchedulerState where
  isConfigured : Bool
  registration : Option BackgroundTaskConfig
  scheduledTasks : List String
deriving DecidableEq

/-- Whether the host facility's own calls resolve or reject. -/
structure HostEnv where
  configureOk : Bool
  scheduleOk : Bool
  stopOk : Bool

namespace BackgroundSyncService

/-- `BackgroundSyncService.configure`: no-op when already configured;
otherwise register with the host, set the flag, then schedule the task;
a host failure is logged and re-thrown. -/
def configure (henv : HostEnv) (config : BackgroundTaskConfig)
    (st : SchedulerState) : SchedulerState × Except String Unit :=
  if st.isConfigured then (st, .ok ())
  else if henv.configureOk = false then (st, .error "Configuration error")
  else
    let st1 : SchedulerState :=
      { st with registration := some config, isConfigured := true }
    if henv.scheduleOk = false then (st1, .error "Configuration error")
    else ({ st1 with scheduledTasks := st1.scheduledTasks ++ [config.taskId] },
      .ok ())

/-- `BackgroundSyncService.stop`: `BackgroundFetch.stop()` then clear the
flag; a host failure is only logged (the flag is then left unchanged), so
the call itself never throws. -/
def stop (henv : HostEnv) (st : SchedulerState) :
    SchedulerState × Except String Unit :=
  if henv.stopOk then
    ({ isConfigured := false, registration := none, scheduledTasks := [] },
      .ok ())
  else (st, .ok ())

/-- The periodic callback registered with `BackgroundFetch.configure`:
run the pipeline, log either outcome, then signal
`BackgroundFetch.finish(taskId)`; the surrounding `try`/`catch` means the
callback always returns normally. -/
def onRun (env : PipelineEnv) (store : List Product)
    (config : BackgroundTaskConfig) (taskId : String) :
    List Event × Except String Unit :=
  let r := DataExportService.exportAndUpload env store config.apiUrl
    (config.compressionLevel.getD 3)
  (r.2 ++ [.finish taskId], .ok ())

/-- The timeout callback registered with `BackgroundFetch.configure`:
log and immediately signal `finish`. -/
def onTimeout (taskId : String) : List Event × Except String Unit :=
  ([.finish taskId], .ok ())

/-- `BackgroundSyncService.triggerManualSync`: run the pipeline once; on a
failed result re-throw `new Error(result.error)`; on success log and
return (the function's return type is `Promise<void>`). -/
def triggerManualSync (env : PipelineEnv) (store : List Product)
    (apiUrl : String) (compressionLevel : Int) :
    Except String Unit × List Event :=
  let r := DataExportService.exportAndUpload env store apiUrl compressionLevel
  if r.1.success then (.ok (), r.2)
  else (.error (r.1.error.getD "undefined"), r.2)

end BackgroundSyncService

/-! ## AWS Signature Version 4 (`MinioUploadService.getAwsSignature`)

Headers are association lists in insertion order (`Object.keys` enumerates
string keys in insertion order).  `Array.prototype.sort()` with no
comparator sorts by UTF-16 code units, which for the strings involved is
the `String` order below; it is modelled by a stable insertion sort. -/

/-- Code-unit lexicographic comparison (what `Array.prototype.sort()`'s
default comparator computes on the ASCII strings involved). -/
def charListLt : List Char → List Char → Bool
  | [], [] => false
  | [], _ :: _ => true
  | _ :: _, [] => false
  | a :: as, b :: bs =>
    if a.toNat < b.toNat then true
    else if b.toNat < a.toNat then false
    else charListLt as bs

/-- `a < b` on strings by code units. -/
def jsStrLt (a b : String) : Bool := charListLt a.data b.data

/-- `a ≤ b` on strings by code units (the default-sort comparator). -/
def jsStrLe (a b : String) : Bool := !jsStrLt b a

/-- Case-insensitive `a ≤ b` (the spec's sort of header names): compare
the lower-cased names by code units. -/
def jsStrLeCI (a b : String) : Bool :=
  !jsStrLt (String.mk (b.data.map Char.toLower))
    (String.mk (a.data.map Char.toLower))

/-- Insert one header into a key-sorted list. -/
def insertHeader (le : String → String → Bool) (p : String × String) :
    List (String × String) → List (String × String)
  | [] => [p]
  | q :: l => if le p.1 q.1 then p :: q :: l else q :: insertHeader le p l

/-- Sort a header list by key with comparator `le`. -/
def sortHeaders (le : String → String → Bool) :
    List (String × String) → List (String × String)
  | [] => []
  | p :: l => insertHeader le p (sortHeaders le l)

/-- ASCII decimal digit test (`\d` on the strings involved). -/
def isDigitCh (c : Char) : Bool := 48 ≤ c.toNat && c.toNat ≤ 57

/-- One left-to-right pass of `.replace(/[:-]|\.\d\x7b3\x7d/g, '')`:
drop every `:` and `-`, and drop each `.` together with three following
digits. -/
def stripDateChars : List Char → List Char
  | [] => []
  | '.' :: a :: b :: c :: rest =>
    if isDigitCh a && isDigitCh b && isDigitCh c then stripDateChars rest
    else '.' :: stripDateChars (a :: b :: c :: rest)
  | c :: rest =>
    if c = ':' ∨ c = '-' then stripDateChars rest else c :: stripDateChars rest

/-- `now.toISOString().slice(0, 10)` with every dash removed (a global
dash-replace) — the SigV4 `dateStamp` (`YYYYMMDD`). -/
def dateStampOf (t : Nat) : String :=
  String.mk (((toISOString t).data.take 10).filter (fun c => !(c = '-')))

/-- `now.toISOString().replace(/[:-]|\.\d\x7b3\x7d/g, '')` — the SigV4
`amzDate` (`YYYYMMDDThhmmssZ`). -/
def amzDateOf (t : Nat) : String :=
  String.mk (stripDateChars (toISOString t).data)

/-- `[...].join('\n')`. -/
def joinNl (l : List String) : String := String.intercalate "\n" l

namespace MinioUploadService

/-- `MinioUploadService.getAwsSignature`, with the clock instant `now`
made explicit.  The code hex-encodes the payload `Buffer`, parses the hex
back into a CryptoJS word array and hashes it — an identity round-trip, so
`payloadHash` is the hex SHA-256 of the payload bytes.  `Object.keys(...)
.sort()` sorts the raw header names case-sensitively; the names are
lower-cased only afterwards, when rendering. -/
def getAwsSignature (method path query : String)
    (headers : List (String × String)) (payload : List Nat)
    (accessKey secretKey : String) (now : Nat)
    (region : String := "us-east-1") (service : String := "s3") :
    String × List (String × String) :=
  let dateStamp := dateStampOf now
  let amzDate := amzDateOf now
  let payloadHash := sha256Hex payload
  let headers2 := headers
    ++ [("x-amz-date", amzDate), ("x-amz-content-sha256", payloadHash)]
  let sorted := sortHeaders jsStrLe headers2
  let canonicalHeaders :=
    joinNl (sorted.map (fun p => p.1.toLower ++ ":" ++ p.2.trim)) ++ "\n"
  let signedHeaders := String.intercalate ";" (sorted.map (fun p => p.1.toLower))
  let canonicalRequest :=
    joinNl [method, path, query, canonicalHeaders, signedHeaders, payloadHash]
  let credentialScope :=
    dateStamp ++ "/" ++ region ++ "/" ++ service ++ "/aws4_request"
  let canonicalRequestHash := sha256Hex (utf8Bytes canonicalRequest)
  let stringToSign :=
    joinNl ["AWS4-HMAC-SHA256", amzDate, credentialScope, canonicalRequestHash]
  let kDate := hmacSha256 (utf8Bytes ("AWS4" ++ secretKey)) (utf8Bytes dateStamp)
  let kRegion := hmacSha256 kDate (utf8Bytes region)
  let kService := hmacSha256 kRegion (utf8Bytes service)
  let kSigning := hmacSha256 kService (utf8Bytes "aws4_request")
  let signature := hexOfBytes (hmacSha256 kSigning (utf8Bytes stringToSign))
  ("AWS4-HMAC-SHA256 Credential=" ++ accessKey ++ "/" ++ credentialScope
      ++ ", SignedHeaders=" ++ signedHeaders ++ ", Signature=" ++ signature,
    headers2)

end MinioUploadService

/-- The SigV4 algorithm exactly as the spec's §4.2.3 words it, for
comparison with `MinioUploadService.getAwsSignature`: canonical headers
are sorted lexicographically **case-insensitively** (modelled by comparing
the lower-cased names) and rendered lower-cased as `name:trimmed-value\n`
per header, concatenated; `dateStamp`/`amzDate` are obtained by stripping
`-`, `:` and the fractional seconds from the ISO-8601 timestamp, as the
spec prescribes; everything else follows the same published algorithm. -/
def specSigV4 (method path query : String)
    (headers : List (String × String)) (payload : List Nat)
    (accessKey secretKey : String) (now : Nat)
    (region : String := "us-east-1") (service : String := "s3") :
    String × List (String × String) :=
  let dateStamp := dateStampOf now
  let amzDate := amzDateOf now
  let payloadHash := sha256Hex payload
  let headers2 := headers
    ++ [("x-amz-date", amzDate), ("x-amz-content-sha256", payloadHash)]
  let sorted := sortHeaders jsStrLeCI headers2
  let canonicalHeaders :=
    String.join (sorted.map (fun p => p.1.toLower ++ ":" ++ p.2.trim ++ "\n"))
  let signedHeaders := String.intercalate ";" (sorted.map (fun p => p.1.toLower))
  let canonicalRequest :=
    joinNl [method, path, query, canonicalHeaders, signedHeaders, payloadHash]
  let credentialScope :=
    dateStamp ++ "/" ++ region ++ "/" ++ service ++ "/aws4_request"
  let canonicalRequestHash := sha256Hex (utf8Bytes canonicalRequest)
  let stringToSign :=
    joinNl ["AWS4-HMAC-SHA256", amzDate, credentialScope, canonicalRequestHash]
  let kDate := hmacSha256 (utf8Bytes ("AWS4" ++ secretKey)) (utf8Bytes dateStamp)
  let kRegion := hmacSha256 kDate (utf8Bytes region)
  let kService := hmacSha256 kRegion (utf8Bytes service)
  let kSigning := hmacSha256 kService (utf8Bytes "aws4_request")
  let signature := hexOfBytes (hmacSha256 kSigning (utf8Bytes stringToSign))
  ("AWS4-HMAC-SHA256 Credential=" ++ accessKey ++ "/" ++ credentialScope
      ++ ", SignedHeaders=" ++ signedHeaders ++ ", Signature=" ++ signature,
    headers2)

/-! ## Concrete fixtures used by witnesses and counterexamples -/

/-- A native environment whose compression oracle depends on the level it
receives (so that level-clamping is observable). -/
def natEnv0 : NativeEnv where
  zstd := fun bs l => .ok (l.natAbs :: bs)
  b64decode := fun _ => .ok [7, 7]
  b64encode := fun bs => toString bs.length

/-- Identity-compressor pipeline environment with a 200/parseable target. -/
def env200 : PipelineEnv where
  zstdString := fun s _ => .ok s
  isConnected := true
  response := { status := 200, jsonParses := true }

/-- Same pipeline environment but the target answers 500. -/
def env500 : PipelineEnv where
  zstdString := fun s _ => .ok s
  isConnected := true
  response := { status := 500, jsonParses := true }

/-- Same pipeline environment but with no network connectivity. -/
def envOffline : PipelineEnv where
  zstdString := fun s _ => .ok s
  isConnected := false
  response := { status := 200, jsonParses := true }

/-- One seeded product record. -/
def mkProduct (n : Nat) : Product where
  id := "rec" ++ toString n
  skuid := "SKU-" ++ toString n
  barcode_pos := "888000" ++ toString n
  product_name := "Product " ++ toString n
  merchant_id := "M1"
  status := "PENDING"
  createdAt := 1700000000000 + n
  updatedAt := 1700000000000 + n

/-- Three seeded `PENDING` records. -/
def store3 : List Product := [mkProduct 1, mkProduct 2, mkProduct 3]

/-- A task configuration fixture. -/
def cfg0 : BackgroundTaskConfig where
  apiUrl := "https://api.example/upload"
  taskId := "com.rnwmfetchzsdt.sync"
  minimumFetchInterval := 15
  compressionLevel := some 3
  stopOnTerminate := some false
  startOnBoot := some true

end Zsdt

/-! # Theorems -/

namespace Zsdt

/-! ## Shared pipeline lemmas -/

theorem exportProductsToZstd_ok (env : PipelineEnv) (store : List Product)
    (lvl : Int) (out : String)
    (h : env.zstdString (serializeProducts store) lvl = .ok out) :
    DataExportService.exportProductsToZstd env store lvl
      = .ok (out, blobSize (serializeProducts store)) := by
  simp only [DataExportService.exportProductsToZstd, h]

theorem exportProductsToZstd_originalSize (env : PipelineEnv)
    (store : List Product) (lvl : Int) (r : String × Nat)
    (h : DataExportService.exportProductsToZstd env store lvl = .ok r) :
    r.2 = blobSize (serializeProducts store) := by
  simp only [DataExportService.exportProductsToZstd] at h
  cases hz : env.zstdString (serializeProducts store) lvl <;> rw [hz] at h
  · exact absurd h (by simp)
  · injection h with h2
    rw [← h2]

theorem sendToExternalAPI_events (env : PipelineEnv) (apiUrl : String)
    (hconn : env.isConnected = true) :
    (DataExportService.sendToExternalAPI env apiUrl).2
      = [.fetchPost apiUrl] := by
  simp only [DataExportService.sendToExternalAPI, hconn]
  split_ifs <;> simp_all

theorem sendToExternalAPI_ok (env : PipelineEnv) (apiUrl : String)
    (hconn : env.isConnected = true)
    (hst : 200 ≤ env.response.status ∧ env.response.status ≤ 299)
    (hj : env.response.jsonParses = true) :
    DataExportService.sendToExternalAPI env apiUrl
      = (.ok (), [.fetchPost apiUrl]) := by
  simp only [DataExportService.sendToExternalAPI, hconn, hj]
  simp [hst]

theorem sendToExternalAPI_statusError (env : PipelineEnv) (apiUrl : String)
    (hconn : env.isConnected = true)
    (hst : ¬(200 ≤ env.response.status ∧ env.response.status ≤ 299)) :
    DataExportService.sendToExternalAPI env apiUrl
      = (.error ("API send failed: Error: HTTP error! status: "
            ++ toString env.response.status),
         [.fetchPost apiUrl]) := by
  simp only [DataExportService.sendToExternalAPI, hconn]
  simp [hst]

theorem exportAndUpload_success (env : PipelineEnv) (store : List Product)
    (apiUrl : String) (lvl : Int) (out : String)
    (hz : env.zstdString (serializeProducts store) lvl = .ok out)
    (hsend : DataExportService.sendToExternalAPI env apiUrl
      = (.ok (), [.fetchPost apiUrl])) :
    DataExportService.exportAndUpload env store apiUrl lvl
      = ({ success := true, compressedSize := blobSize out,
           originalSize := blobSize (serializeProducts store),
           compressionRatio := jsMul100 (jsDiv (blobSize out)
             (blobSize (serializeProducts store))),
           recordCount := store.length, error := none },
         [.fetchPost apiUrl]) := by
  unfold DataExportService.exportAndUpload
  rw [exportProductsToZstd_ok env store lvl out hz, hsend]

theorem exportAndUpload_sendError (env : PipelineEnv) (store : List Product)
    (apiUrl : String) (lvl : Int) (out : String) (e : String)
    (ev : List Event)
    (hz : env.zstdString (serializeProducts store) lvl = .ok out)
    (hsend : DataExportService.sendToExternalAPI env apiUrl = (.error e, ev)) :
    DataExportService.exportAndUpload env store apiUrl lvl
      = ({ success := false, compressedSize := 0, originalSize := 0,
           compressionRatio := .num 0, recordCount := 0, error := some e },
         ev) := by
  unfold DataExportService.exportAndUpload
  rw [exportProductsToZstd_ok env store lvl out hz, hsend]

theorem triggerManualSync_of_success (env : PipelineEnv)
    (store : List Product) (apiUrl : String) (lvl : Int)
    (h : (DataExportService.exportAndUpload env store apiUrl lvl).1.success
      = true) :
    (BackgroundSyncService.triggerManualSync env store apiUrl lvl).1
      = .ok () := by
  simp only [BackgroundSyncService.triggerManualSync, h, if_true]

theorem triggerManualSync_of_failure (env : PipelineEnv)
    (store : List Product) (apiUrl : String) (lvl : Int)
    (h : (DataExportService.exportAndUpload env store apiUrl lvl).1.success
      = false) :
    (BackgroundSyncService.triggerManualSync env store apiUrl lvl).1
      = .error ((DataExportService.exportAndUpload env store apiUrl
          lvl).1.error.getD "undefined") := by
  simp only [BackgroundSyncService.triggerManualSync, h]
  simp

/-! ## C2: the compression-ratio operation -/

/-- Claim C2, counterexample at `a = 0`: `getCompressionRatio` silently
performs the IEEE division, resolving `NaN` (for `b = 0`) or `Infinity`
(for `b > 0`) instead of signalling an error, and the JavaScript ratio of
`compressAndUpload` does the same. -/
theorem c2_ratio_zero_counterexample :
    ZstdModule.getCompressionRatio 0 0 = Except.ok JsNum.nan ∧
    ZstdModule.getCompressionRatio 0 5 = Except.ok JsNum.inf ∧
    compressAndUploadRatio 0 7 = JsNum.inf :=
  ⟨rfl, rfl, rfl⟩

/-- Claim C2, amended: for `a ≠ 0` both the native
`ZstdModule.getCompressionRatio` and the JavaScript ratio of
`compressAndUpload` return exactly `b/a*100` (doubles modelled as exact
rationals); for `a = 0` the operation silently divides by zero, resolving
`Infinity` (`b > 0`) or `NaN` (`b = 0`) rather than signalling an error. -/
theorem c2_ratio_amended (a b : Int) (ha : a ≠ 0) :
    ZstdModule.getCompressionRatio a b = .ok (.num ((b : ℚ) / (a : ℚ) * 100)) ∧
    compressAndUploadRatio a b = .num ((b : ℚ) / (a : ℚ) * 100) ∧
    (∀ b2 : Int, 0 < b2 → ZstdModule.getCompressionRatio 0 b2 = .ok JsNum.inf) ∧
    ZstdModule.getCompressionRatio 0 0 = .ok JsNum.nan := by
  refine ⟨?_, ?_, ?_, rfl⟩
  · simp [ZstdModule.getCompressionRatio, jsDiv, jsMul100, ha]
  · simp [compressAndUploadRatio, jsDiv, jsMul100, ha]
  · intro b2 hb2
    simp [ZstdModule.getCompressionRatio, jsDiv, jsMul100, hb2,
      Int.ne_of_gt hb2, (Int.ne_of_gt hb2).symm]

/-- Witness for `c2_ratio_amended` at `a = 4`, `b = 1`. -/
theorem c2_ratio_amended_witness :
    (4 : Int) ≠ 0 ∧
    (ZstdModule.getCompressionRatio 4 1
        = .ok (.num (((1 : Int) : ℚ) / ((4 : Int) : ℚ) * 100)) ∧
      compressAndUploadRatio 4 1 = .num (((1 : Int) : ℚ) / ((4 : Int) : ℚ) * 100) ∧
      (∀ b2 : Int, 0 < b2 → ZstdModule.getCompressionRatio 0 b2 = .ok JsNum.inf) ∧
      ZstdModule.getCompressionRatio 0 0 = .ok JsNum.nan) :=
  ⟨by decide, c2_ratio_amended 4 1 (by decide)⟩

/-! ## C10: out-of-range compression levels are clamped to 3 -/

/-- Claim C10: for any compression level outside `[1, 22]` the native
`compress` and `compressString` behave exactly as if level 3 had been
passed — the level never causes a rejection by itself. -/
theorem c10_level_clamped (env : NativeEnv) (d : String) (l : Int)
    (hl : ¬(1 ≤ l ∧ l ≤ 22)) :
    ZstdModule.compress env d l = ZstdModule.compress env d 3 ∧
    ZstdModule.compressString env d l = ZstdModule.compressString env d 3 := by
  have hc : ZstdModule.clampLevel l = ZstdModule.clampLevel 3 := by
    simp [ZstdModule.clampLevel, hl]
  constructor
  · simp only [ZstdModule.compress, hc]
  · simp only [ZstdModule.compressString, hc]

/-- Witness for `c10_level_clamped` at level 23 (and implicitly level 3),
on an environment whose compressor output depends on the level. -/
theorem c10_level_clamped_witness :
    ¬((1 : Int) ≤ 23 ∧ (23 : Int) ≤ 22) ∧
    (ZstdModule.compress natEnv0 "QUJD" 23 = ZstdModule.compress natEnv0 "QUJD" 3 ∧
      ZstdModule.compressString natEnv0 "QUJD" 23
        = ZstdModule.compressString natEnv0 "QUJD" 3) :=
  ⟨by decide, c10_level_clamped natEnv0 "QUJD" 23 (by decide)⟩

/-! ## C4: manual sync re-raises, the periodic path only logs -/

/-- Claim C4: whenever the export-and-upload pipeline fails,
`triggerManualSync` re-raises the failure to its caller (`throw new
Error(result.error)`), while the periodic callback on the same inputs
returns normally (it only logs). -/
theorem c4_manual_reraises_periodic_swallows (env : PipelineEnv)
    (store : List Product) (apiUrl : String) (lvl : Int)
    (hfail : (DataExportService.exportAndUpload env store apiUrl
      lvl).1.success = false) :
    (BackgroundSyncService.triggerManualSync env store apiUrl lvl).1
        = .error ((DataExportService.exportAndUpload env store apiUrl
          lvl).1.error.getD "undefined") ∧
    (∀ cfg : BackgroundTaskConfig, ∀ taskId,
      cfg.apiUrl = apiUrl → cfg.compressionLevel = some lvl →
        (BackgroundSyncService.onRun env store cfg taskId).2 = .ok ()) :=
  ⟨triggerManualSync_of_failure env store apiUrl lvl hfail,
    fun _ _ _ _ => rfl⟩

/-- Witness for `c4_manual_reraises_periodic_swallows`: a disconnected
network makes the pipeline fail. -/
theorem c4_manual_reraises_periodic_swallows_witness :
    (DataExportService.exportAndUpload envOffline [] "https://u" 3).1.success
        = false ∧
    ((BackgroundSyncService.triggerManualSync envOffline [] "https://u" 3).1
        = .error ((DataExportService.exportAndUpload envOffline []
          "https://u" 3).1.error.getD "undefined") ∧
      (∀ cfg : BackgroundTaskConfig, ∀ taskId,
        cfg.apiUrl = "https://u" → cfg.compressionLevel = some 3 →
          (BackgroundSyncService.onRun envOffline [] cfg taskId).2
            = .ok ())) :=
  ⟨rfl, c4_manual_reraises_periodic_swallows envOffline [] "https://u" 3 rfl⟩

/-! ## C5: `originalSize` is the serialized byte length, level-independent -/

/-- Claim C5: for every store contents and every pair of compression
levels in `[1, 22]`, a successful export reports `originalSize` equal to
the UTF-8 byte length of the canonical JSON serialization of the records'
field tuples, the same for both levels. -/
theorem c5_originalSize_canonical (env : PipelineEnv) (store : List Product)
    (l1 l2 : Int) (r1 r2 : String × Nat)
    (hl1 : 1 ≤ l1 ∧ l1 ≤ 22) (hl2 : 1 ≤ l2 ∧ l2 ≤ 22)
    (e1 : DataExportService.exportProductsToZstd env store l1 = .ok r1)
    (e2 : DataExportService.exportProductsToZstd env store l2 = .ok r2) :
    r1.2 = (utf8Bytes (serializeProducts store)).length ∧ r2.2 = r1.2 := by
  have h1 := exportProductsToZstd_originalSize env store l1 r1 e1
  have h2 := exportProductsToZstd_originalSize env store l2 r2 e2
  exact ⟨h1, h2.trans h1.symm⟩

/-- Witness for `c5_originalSize_canonical` on the three seeded records at
levels 1 and 22. -/
theorem c5_originalSize_canonical_witness :
    ((1 : Int) ≤ 1 ∧ (1 : Int) ≤ 22) ∧ ((1 : Int) ≤ 22 ∧ (22 : Int) ≤ 22) ∧
    DataExportService.exportProductsToZstd env200 store3 1
        = .ok (serializeProducts store3, blobSize (serializeProducts store3)) ∧
    DataExportService.exportProductsToZstd env200 store3 22
        = .ok (serializeProducts store3, blobSize (serializeProducts store3)) ∧
    ((serializeProducts store3, blobSize (serializeProducts store3)).2
        = (utf8Bytes (serializeProducts store3)).length ∧
      (serializeProducts store3, blobSize (serializeProducts store3)).2
        = (serializeProducts store3, blobSize (serializeProducts store3)).2) :=
  ⟨by decide, by decide, rfl, rfl,
    c5_originalSize_canonical env200 store3 1 22 _ _ (by decide) (by decide)
      rfl rfl⟩

/-! ## C6: the empty-store scenario -/

/-- Claim C6: with an empty record store the export serializes `[]` with
`originalSize = 2`, compression succeeds (given the codec's contract),
delivery is still attempted (the POST event occurs), and the pipeline
result reports `recordCount = 0`. -/
theorem c6_empty_store (env : PipelineEnv) (apiUrl : String) (lvl : Int)
    (hz : ∀ s l, ∃ out, env.zstdString s l = Except.ok out)
    (hconn : env.isConnected = true) :
    serializeProducts [] = "[]" ∧
    (∃ r, DataExportService.exportProductsToZstd env [] lvl = .ok r ∧
      r.2 = 2) ∧
    Event.fetchPost apiUrl ∈ (DataExportService.exportAndUpload env []
      apiUrl lvl).2 ∧
    (DataExportService.exportAndUpload env [] apiUrl lvl).1.recordCount
      = 0 := by
  obtain ⟨out, hout⟩ := hz (serializeProducts []) lvl
  have hexp := exportProductsToZstd_ok env [] lvl out hout
  refine ⟨rfl, ⟨(out, blobSize (serializeProducts [])), hexp, rfl⟩, ?_, ?_⟩
  · have hev : (DataExportService.exportAndUpload env [] apiUrl lvl).2
        = (DataExportService.sendToExternalAPI env apiUrl).2 := by
      unfold DataExportService.exportAndUpload
      rw [hexp]
      cases hsend : DataExportService.sendToExternalAPI env apiUrl with
      | mk fst snd => cases fst <;> rfl
    rw [hev, sendToExternalAPI_events env apiUrl hconn]
    simp
  · unfold DataExportService.exportAndUpload
    rw [hexp]
    cases hsend : DataExportService.sendToExternalAPI env apiUrl with
    | mk fst snd => cases fst <;> simp

/-- Witness for `c6_empty_store` with the identity compressor and a
200/parseable target. -/
theorem c6_empty_store_witness :
    (∀ s l, ∃ out, env200.zstdString s l = Except.ok out) ∧
    env200.isConnected = true ∧
    (serializeProducts [] = "[]" ∧
      (∃ r, DataExportService.exportProductsToZstd env200 [] 3 = .ok r ∧
        r.2 = 2) ∧
      Event.fetchPost "https://u" ∈ (DataExportService.exportAndUpload env200
        [] "https://u" 3).2 ∧
      (DataExportService.exportAndUpload env200 [] "https://u"
        3).1.recordCount = 0) :=
  ⟨fun s _ => ⟨s, rfl⟩, rfl,
    c6_empty_store env200 "https://u" 3 (fun s _ => ⟨s, rfl⟩) rfl⟩

/-! ## C3: the three-record manual-sync scenario -/

/-- Claim C3, counterexample: with three seeded `PENDING` records and a
target answering 200, the pipeline's internal result is
`success = true`, `recordCount = 3`, but `triggerManualSync` does **not**
return that value to its caller — its return type is `Promise<void>`, so
the call resolves with no value (`.ok ()`), and on a 500 it throws
instead of returning `\x7bsuccess:false, error\x7d`. -/
theorem c3_void_return_counterexample :
    (DataExportService.exportAndUpload env200 store3
      "https://api.example/upload" 3).1.success = true ∧
    (DataExportService.exportAndUpload env200 store3
      "https://api.example/upload" 3).1.recordCount = 3 ∧
    (BackgroundSyncService.triggerManualSync env200 store3
      "https://api.example/upload" 3).1 = Except.ok () ∧
    (BackgroundSyncService.triggerManualSync env500 store3
      "https://api.example/upload" 3).1
      = Except.error "API send failed: Error: HTTP error! status: 500" :=
  ⟨rfl, rfl, rfl, rfl⟩

/-- Claim C3, amended: with three seeded records, the pipeline result that
`triggerManualSync` computes internally is `success = true`,
`recordCount = 3` when the target responds 200/204 (with a parseable
body) and `success = false` with an error when it responds 500; the
manual-sync call itself resolves with no value in the first case and
throws the error in the second. -/
theorem c3_three_records_amended (store : List Product)
    (envA envB : PipelineEnv) (apiUrl : String) (lvl : Int)
    (h3 : store.length = 3)
    (hzA : ∀ s l, ∃ out, envA.zstdString s l = Except.ok out)
    (hcA : envA.isConnected = true)
    (hsA : envA.response.status = 200 ∨ envA.response.status = 204)
    (hjA : envA.response.jsonParses = true)
    (hzB : ∀ s l, ∃ out, envB.zstdString s l = Except.ok out)
    (hcB : envB.isConnected = true)
    (hsB : envB.response.status = 500) :
    ((DataExportService.exportAndUpload envA store apiUrl lvl).1.success
        = true ∧
      (DataExportService.exportAndUpload envA store apiUrl
        lvl).1.recordCount = 3 ∧
      (BackgroundSyncService.triggerManualSync envA store apiUrl lvl).1
        = .ok ()) ∧
    ((DataExportService.exportAndUpload envB store apiUrl lvl).1.success
        = false ∧
      (DataExportService.exportAndUpload envB store apiUrl
        lvl).1.error.isSome = true ∧
      (∃ e, (BackgroundSyncService.triggerManualSync envB store apiUrl
        lvl).1 = .error e)) := by
  obtain ⟨outA, hzA2⟩ := hzA (serializeProducts store) lvl
  obtain ⟨outB, hzB2⟩ := hzB (serializeProducts store) lvl
  have hstA : 200 ≤ envA.response.status ∧ envA.response.status ≤ 299 := by
    rcases hsA with h | h <;> rw [h] <;> exact ⟨by omega, by omega⟩
  have hsendA := sendToExternalAPI_ok envA apiUrl hcA hstA hjA
  have hA := exportAndUpload_success envA store apiUrl lvl outA hzA2 hsendA
  have hsendB := sendToExternalAPI_statusError envB apiUrl hcB
    (by rw [hsB]; omega)
  have hB := exportAndUpload_sendError envB store apiUrl lvl outB _ _ hzB2
    hsendB
  refine ⟨⟨?_, ?_, ?_⟩, ?_, ?_, ?_⟩
  · rw [hA]
  · rw [hA]; exact h3
  · exact triggerManualSync_of_success envA store apiUrl lvl (by rw [hA])
  · rw [hB]
  · rw [hB]; rfl
  · exact ⟨_, triggerManualSync_of_failure envB store apiUrl lvl
      (by rw [hB])⟩

/-- Witness for `c3_three_records_amended` on the concrete fixtures. -/
theorem c3_three_records_amended_witness :
    store3.length = 3 ∧
    env200.isConnected = true ∧
    (env200.response.status = 200 ∨ env200.response.status = 204) ∧
    env200.response.jsonParses = true ∧
    env500.isConnected = true ∧
    env500.response.status = 500 ∧
    (((DataExportService.exportAndUpload env200 store3
        "https://api.example/upload" 3).1.success = true ∧
      (DataExportService.exportAndUpload env200 store3
        "https://api.example/upload" 3).1.recordCount = 3 ∧
      (BackgroundSyncService.triggerManualSync env200 store3
        "https://api.example/upload" 3).1 = .ok ()) ∧
      ((DataExportService.exportAndUpload env500 store3
        "https://api.example/upload" 3).1.success = false ∧
      (DataExportService.exportAndUpload env500 store3
        "https://api.example/upload" 3).1.error.isSome = true ∧
      (∃ e, (BackgroundSyncService.triggerManualSync env500 store3
        "https://api.example/upload" 3).1 = .error e))) :=
  ⟨rfl, rfl, Or.inl rfl, rfl, rfl, rfl,
    c3_three_records_amended store3 env200 env500
      "https://api.example/upload" 3 rfl (fun s _ => ⟨s, rfl⟩) rfl
      (Or.inl rfl) rfl (fun s _ => ⟨s, rfl⟩) rfl rfl⟩

/-! ## C8: every periodic invocation signals completion -/

/-- Claim C8: the registered periodic callback always ends by signalling
`BackgroundFetch.finish(taskId)` and returns normally whatever the
pipeline outcome was, and the timeout callback immediately signals
`finish` without doing anything else. -/
theorem c8_always_finishes (env : PipelineEnv) (store : List Product)
    (cfg : BackgroundTaskConfig) (taskId : String) :
    (BackgroundSyncService.onRun env store cfg taskId).1.getLast?
        = some (.finish taskId) ∧
    (BackgroundSyncService.onRun env store cfg taskId).2 = .ok () ∧
    BackgroundSyncService.onTimeout taskId = ([.finish taskId], .ok ()) := by
  refine ⟨?_, rfl, rfl⟩
  simp [BackgroundSyncService.onRun]

/-! ## C7: the scheduler state machine -/

/-- Claim C7: while a registration is active every further `configure`
call is a pure no-op (the state, including the first registration's
parameters and the scheduled tasks, is unchanged and nothing is thrown),
and `stop` (when the host call succeeds) transitions to the unconfigured
state and is idempotent. -/
theorem c7_scheduler_invariant (henv : HostEnv) (cfg : BackgroundTaskConfig)
    (st : SchedulerState) (hActive : st.isConfigured = true)
    (hstop : henv.stopOk = true) :
    BackgroundSyncService.configure henv cfg st = (st, .ok ()) ∧
    (BackgroundSyncService.stop henv st).1.isConfigured = false ∧
    (BackgroundSyncService.stop henv st).1.registration = none ∧
    (BackgroundSyncService.stop henv
        (BackgroundSyncService.stop henv st).1).1
      = (BackgroundSyncService.stop henv st).1 := by
  refine ⟨?_, ?_, ?_, ?_⟩ <;>
    simp [BackgroundSyncService.configure, BackgroundSyncService.stop,
      hActive, hstop]

/-- Witness for `c7_scheduler_invariant` on a concrete active state. -/
theorem c7_scheduler_invariant_witness :
    (SchedulerState.mk true (some cfg0) [cfg0.taskId]).isConfigured = true ∧
    (HostEnv.mk true true true).stopOk = true ∧
    (BackgroundSyncService.configure ⟨true, true, true⟩ cfg0
        ⟨true, some cfg0, [cfg0.taskId]⟩
      = (⟨true, some cfg0, [cfg0.taskId]⟩, .ok ()) ∧
      (BackgroundSyncService.stop ⟨true, true, true⟩
          ⟨true, some cfg0, [cfg0.taskId]⟩).1.isConfigured = false ∧
      (BackgroundSyncService.stop ⟨true, true, true⟩
          ⟨true, some cfg0, [cfg0.taskId]⟩).1.registration = none ∧
      (BackgroundSyncService.stop ⟨true, true, true⟩
          (BackgroundSyncService.stop ⟨true, true, true⟩
            ⟨true, some cfg0, [cfg0.taskId]⟩).1).1
        = (BackgroundSyncService.stop ⟨true, true, true⟩
            ⟨true, some cfg0, [cfg0.taskId]⟩).1) :=
  ⟨rfl, rfl,
    c7_scheduler_invariant ⟨true, true, true⟩ cfg0
      ⟨true, some cfg0, [cfg0.taskId]⟩ rfl rfl⟩

end Zsdt
namespace Zsdt

theorem doe_lt (z : Nat) : doeOf z < 146097 := Nat.mod_lt _ (by norm_num)

theorem yoeSearch_le (y doe : Nat) : yoeSearch y doe ≤ y := by
  induction y with
  | zero => simp [yoeSearch]
  | succ n ih =>
    unfold yoeSearch
    split
    · exact Nat.le_refl _
    · exact Nat.le_succ_of_le ih

theorem yoeSearch_start_le (y doe : Nat) : yearStart (yoeSearch y doe) ≤ doe := by
  induction y with
  | zero => simp [yoeSearch, yearStart]
  | succ n ih =>
    unfold yoeSearch
    split
    · assumption
    · exact ih

theorem yoeSearch_upper (y doe : Nat) :
    doe < yearStart (yoeSearch y doe + 1) ∨ yoeSearch y doe = y := by
  induction y with
  | zero => exact Or.inr rfl
  | succ n ih =>
    unfold yoeSearch
    split
    · exact Or.inr rfl
    · rcases ih with h | h
      · exact Or.inl h
      · exact Or.inl (by rw [h]; omega)

theorem yoe_le (z : Nat) : yoeOf z ≤ 399 := yoeSearch_le 399 (doeOf z)

theorem yearStart_yoe_le (z : Nat) : yearStart (yoeOf z) ≤ doeOf z :=
  yoeSearch_start_le 399 (doeOf z)

theorem doy_le (z : Nat) : doyOf z ≤ 365 := by
  have h3 := yearStart_yoe_le z
  unfold doyOf
  rcases yoeSearch_upper 399 (doeOf z) with h | h
  · have h2 : yearStart (yoeOf z + 1) ≤ yearStart (yoeOf z) + 366 := by
      unfold yearStart; omega
    have h4 : doeOf z < yearStart (yoeOf z + 1) := h
    omega
  · have h1 := doe_lt z
    have h5 : yoeOf z = 399 := h
    have h6 : yearStart 399 = 145731 := by unfold yearStart; omega
    rw [h5, h6]
    omega

theorem doy_add (z : Nat) : yearStart (yoeOf z) + doyOf z = doeOf z := by
  have := yearStart_yoe_le z
  unfold doyOf
  omega

theorem monthStart_le_doy (z : Nat) : monthStart (mpOf z) ≤ doyOf z := by
  unfold mpOf monthStart
  omega

theorem mp_le (z : Nat) : mpOf z ≤ 11 := by
  have := doy_le z
  unfold mpOf
  omega

theorem day_ge (z : Nat) : 1 ≤ dayOf z := by
  have := monthStart_le_doy z
  unfold dayOf
  omega

theorem day_le (z : Nat) : dayOf z ≤ 31 := by
  unfold dayOf mpOf monthStart
  omega

theorem feb_day_le (z : Nat) (h : mpOf z = 11) : dayOf z ≤ 29 := by
  have h1 := doy_le z
  unfold dayOf
  rw [h]
  unfold monthStart
  omega

theorem doy_reconstruct (z : Nat) :
    monthStart (mpOf z) + (dayOf z - 1) = doyOf z := by
  have h1 := monthStart_le_doy z
  have h2 := day_ge z
  unfold dayOf at h2 ⊢
  omega

theorem eraDays_split (era yoe : Nat) (h : yoe ≤ 399) :
    eraDays (yoe + 400 * era) = 146097 * era + yearStart yoe := by
  unfold eraDays yearStart
  omega

theorem era_doe (z : Nat) : 146097 * eraOf z + doeOf z = z + 719468 := by
  unfold eraOf doeOf civilShift
  omega

theorem reconstruct (z : Nat) :
    eraDays (yStarOf z) + monthStart (mpOf z) + (dayOf z - 1) = z + 719468 := by
  unfold yStarOf
  rw [eraDays_split (eraOf z) (yoeOf z) (yoe_le z)]
  have h1 := doy_reconstruct z
  have h2 := doy_add z
  have h3 := era_doe z
  omega

theorem eraDays_step_le (y : Nat) : eraDays y ≤ eraDays (y + 1) := by
  unfold eraDays
  omega

theorem eraDays_mono_le (y1 y2 : Nat) (h : y1 ≤ y2) :
    eraDays y1 ≤ eraDays y2 := by
  induction y2 with
  | zero =>
    have : y1 = 0 := by omega
    rw [this]
  | succ n ih =>
    rcases Nat.lt_succ_iff_lt_or_eq.mp (Nat.lt_succ_of_le h) with h2 | h2
    · exact le_trans (ih (by omega)) (eraDays_step_le n)
    · rw [h2]

theorem eraDays_step (y : Nat) : eraDays y + 365 ≤ eraDays (y + 1) := by
  unfold eraDays
  omega

theorem eraDays_mono (y1 y2 : Nat) (h : y1 < y2) :
    eraDays y1 + 365 ≤ eraDays y2 :=
  le_trans (eraDays_step y1) (eraDays_mono_le _ _ h)

end Zsdt
namespace Zsdt

theorem reconstruct_le (y1 mp1 d1 y2 mp2 d2 : Nat)
    (hmp1 : mp1 ≤ 11) (hd1a : 1 ≤ d1) (hd1b : d1 ≤ 31)
    (hfeb1 : mp1 = 11 → d1 ≤ 29) (hd2a : 1 ≤ d2)
    (hlex : y1 < y2 ∨ (y1 = y2 ∧ (mp1 < mp2 ∨ (mp1 = mp2 ∧ d1 ≤ d2)))) :
    eraDays y1 + monthStart mp1 + (d1 - 1)
      ≤ eraDays y2 + monthStart mp2 + (d2 - 1) := by
  rcases hlex with hy | ⟨hy, hrest⟩
  · have h1 := eraDays_mono y1 y2 hy
    by_cases hm : mp1 = 11
    · have hf := hfeb1 hm
      rw [hm]
      have h2 : monthStart 11 = 337 := by unfold monthStart; omega
      have h3 : 0 ≤ monthStart mp2 := Nat.zero_le _
      omega
    · have h2 : monthStart mp1 ≤ 306 := by
        unfold monthStart; omega
      have h3 : 0 ≤ monthStart mp2 := Nat.zero_le _
      omega
  · rw [hy]
    rcases hrest with hm | ⟨hm, hd⟩
    · have h2 : monthStart mp1 + 30 ≤ monthStart mp2 := by
        unfold monthStart; omega
      omega
    · rw [hm]
      omega

theorem fields_lex_of_days_lt (z1 z2 : Nat) (h : z1 < z2) :
    yStarOf z1 < yStarOf z2 ∨ (yStarOf z1 = yStarOf z2 ∧
      (mpOf z1 < mpOf z2 ∨ (mpOf z1 = mpOf z2 ∧ dayOf z1 < dayOf z2))) := by
  have hr1 := reconstruct z1
  have hr2 := reconstruct z2
  rcases Nat.lt_trichotomy (yStarOf z1) (yStarOf z2) with hy | hy | hy
  · exact Or.inl hy
  · rcases Nat.lt_trichotomy (mpOf z1) (mpOf z2) with hm | hm | hm
    · exact Or.inr ⟨hy, Or.inl hm⟩
    · rcases Nat.lt_trichotomy (dayOf z1) (dayOf z2) with hd | hd | hd
      · exact Or.inr ⟨hy, Or.inr ⟨hm, hd⟩⟩
      · exfalso
        rw [hy, hm, hd] at hr1
        omega
      · exfalso
        have := reconstruct_le (yStarOf z2) (mpOf z2) (dayOf z2)
          (yStarOf z1) (mpOf z1) (dayOf z1) (mp_le z2) (day_ge z2)
          (day_le z2) (feb_day_le z2) (day_ge z1)
          (Or.inr ⟨hy.symm, Or.inr ⟨hm.symm, Nat.le_of_lt hd⟩⟩)
        omega
    · exfalso
      have := reconstruct_le (yStarOf z2) (mpOf z2) (dayOf z2)
        (yStarOf z1) (mpOf z1) (dayOf z1) (mp_le z2) (day_ge z2)
        (day_le z2) (feb_day_le z2) (day_ge z1)
        (Or.inr ⟨hy.symm, Or.inl hm⟩)
      omega
  · exfalso
    have := reconstruct_le (yStarOf z2) (mpOf z2) (dayOf z2)
      (yStarOf z1) (mpOf z1) (dayOf z1) (mp_le z2) (day_ge z2)
      (day_le z2) (feb_day_le z2) (day_ge z1) (Or.inl hy)
    omega

theorem civil_lex (z1 z2 : Nat)
    (h : yStarOf z1 < yStarOf z2 ∨ (yStarOf z1 = yStarOf z2 ∧
      (mpOf z1 < mpOf z2 ∨ (mpOf z1 = mpOf z2 ∧ dayOf z1 < dayOf z2)))) :
    yearOf z1 < yearOf z2 ∨ (yearOf z1 = yearOf z2 ∧
      (monthOf z1 < monthOf z2 ∨ (monthOf z1 = monthOf z2 ∧
        dayOf z1 < dayOf z2))) := by
  have hm1 := mp_le z1
  have hm2 := mp_le z2
  unfold yearOf monthOf
  split_ifs <;> omega

theorem time_lex (u1 u2 : Nat) (h : u1 < u2) :
    u1 / 3600000 < u2 / 3600000 ∨ (u1 / 3600000 = u2 / 3600000 ∧
      (u1 % 3600000 / 60000 < u2 % 3600000 / 60000 ∨
        (u1 % 3600000 / 60000 = u2 % 3600000 / 60000 ∧
          (u1 % 60000 / 1000 < u2 % 60000 / 1000 ∨
            (u1 % 60000 / 1000 = u2 % 60000 / 1000 ∧
              u1 % 1000 < u2 % 1000))))) := by
  omega

end Zsdt
namespace Zsdt

theorem fields_lex_of_lt (t1 t2 : Nat) (h : t1 < t2) :
    yearOf (t1 / msPerDay) < yearOf (t2 / msPerDay) ∨
      (yearOf (t1 / msPerDay) = yearOf (t2 / msPerDay) ∧
      (monthOf (t1 / msPerDay) < monthOf (t2 / msPerDay) ∨
        (monthOf (t1 / msPerDay) = monthOf (t2 / msPerDay) ∧
        (dayOf (t1 / msPerDay) < dayOf (t2 / msPerDay) ∨
          (dayOf (t1 / msPerDay) = dayOf (t2 / msPerDay) ∧
          (hourOf t1 < hourOf t2 ∨ (hourOf t1 = hourOf t2 ∧
          (minuteOf t1 < minuteOf t2 ∨ (minuteOf t1 = minuteOf t2 ∧
          (secondOf t1 < secondOf t2 ∨ (secondOf t1 = secondOf t2 ∧
            millisOf t1 < millisOf t2))))))))))) := by
  rcases Nat.lt_trichotomy (t1 / msPerDay) (t2 / msPerDay) with hz | hz | hz
  · rcases civil_lex _ _ (fields_lex_of_days_lt _ _ hz) with hy | ⟨hy, hrest⟩
    · exact Or.inl hy
    · rcases hrest with hm | ⟨hm, hd⟩
      · exact Or.inr ⟨hy, Or.inl hm⟩
      · exact Or.inr ⟨hy, Or.inr ⟨hm, Or.inl hd⟩⟩
  · have hu : t1 % 86400000 < t2 % 86400000 := by
      unfold msPerDay at hz
      omega
    have ht := time_lex (t1 % 86400000) (t2 % 86400000) hu
    have e1 : ∀ t : Nat, t % 86400000 % 3600000 = t % 3600000 :=
      fun t => Nat.mod_mod_of_dvd t (by norm_num)
    have e2 : ∀ t : Nat, t % 86400000 % 60000 = t % 60000 :=
      fun t => Nat.mod_mod_of_dvd t (by norm_num)
    have e3 : ∀ t : Nat, t % 86400000 % 1000 = t % 1000 :=
      fun t => Nat.mod_mod_of_dvd t (by norm_num)
    rw [e1, e1, e2, e2, e3, e3] at ht
    refine Or.inr ⟨by rw [hz], Or.inr ⟨by rw [hz], Or.inr ⟨by rw [hz], ?_⟩⟩⟩
    unfold hourOf minuteOf secondOf millisOf
    exact ht
  · exfalso
    have := Nat.div_le_div_right (c := msPerDay) (Nat.le_of_lt h)
    omega

theorem month_le (z : Nat) : monthOf z ≤ 12 := by
  have := mp_le z
  unfold monthOf
  split_ifs <;> omega

theorem month_ge (z : Nat) : 1 ≤ monthOf z := by
  unfold monthOf
  split_ifs <;> omega

theorem year_le (t : Nat) (h : t < isoMsLimit) :
    yearOf (t / msPerDay) ≤ 9999 := by
  have hzb : t / msPerDay ≤ 2932896 := by
    unfold isoMsLimit at h
    unfold msPerDay
    omega
  have hrec := reconstruct (t / msPerDay)
  by_contra hy
  push_neg at hy
  have hmp := mp_le (t / msPerDay)
  unfold yearOf at hy
  by_cases hc : 10 ≤ mpOf (t / msPerDay)
  · rw [if_pos hc] at hy
    have h1 : eraDays 9999 ≤ eraDays (yStarOf (t / msPerDay)) :=
      eraDays_mono_le _ _ (by omega)
    have h2 : eraDays 9999 = 3652059 := by unfold eraDays; omega
    have h3 : monthStart 10 ≤ monthStart (mpOf (t / msPerDay)) := by
      unfold monthStart; omega
    have h4 : monthStart 10 = 306 := by unfold monthStart; omega
    omega
  · rw [if_neg hc] at hy
    have h1 : eraDays 10000 ≤ eraDays (yStarOf (t / msPerDay)) :=
      eraDays_mono_le _ _ (by omega)
    have h2 : eraDays 10000 = 3652425 := by unfold eraDays; omega
    omega

theorem hour_le (t : Nat) : hourOf t ≤ 23 := by unfold hourOf; omega

theorem minute_le (t : Nat) : minuteOf t ≤ 59 := by unfold minuteOf; omega

theorem second_le (t : Nat) : secondOf t ≤ 59 := by unfold secondOf; omega

theorem millis_le (t : Nat) : millisOf t ≤ 999 := by unfold millisOf; omega

end Zsdt
namespace Zsdt

theorem decChar_lt (d1 d2 : Nat) (h : d1 < d2) (h2 : d2 ≤ 9) :
    decChar d1 < decChar d2 := by
  have h1 : d1 ≤ 8 := by omega
  interval_cases d1 <;> interval_cases d2 <;> decide

theorem decChar_not_sep (d : Nat) (h : d ≤ 9) :
    ¬(decChar d = ':' ∨ decChar d = '.') := by
  interval_cases d <;> decide

theorem listLt_cons (c : Char) (r1 r2 : List Char)
    (h : List.Lex (· < ·) r1 r2) : List.Lex (· < ·) (c :: r1) (c :: r2) :=
  List.Lex.cons h

theorem listLt_append_left (p r1 r2 : List Char)
    (h : List.Lex (· < ·) r1 r2) : List.Lex (· < ·) (p ++ r1) (p ++ r2) := by
  induction p with
  | nil => exact h
  | cons c cs ih => exact listLt_cons c _ _ ih

theorem padDigits_map_replace (k n : Nat) (h : n < 10 ^ k) :
    (padDigits k n).map (fun c => if c = ':' ∨ c = '.' then '-' else c)
      = padDigits k n := by
  induction k generalizing n with
  | zero => rfl
  | succ m ih =>
    have h10 : (0 : Nat) < 10 ^ m := Nat.pos_pow_of_pos m (by norm_num)
    have hd : n / 10 ^ m ≤ 9 := by
      have := (Nat.div_lt_iff_lt_mul h10).mpr
        (by rw [← pow_succ'] at *; exact h)
      omega
    simp only [padDigits, List.map_cons]
    rw [if_neg (decChar_not_sep _ hd), ih _ (Nat.mod_lt _ h10)]

theorem padDigits_lt (k n1 n2 : Nat) (r1 r2 : List Char) (h : n1 < n2)
    (h2 : n2 < 10 ^ k) :
    List.Lex (· < ·) (padDigits k n1 ++ r1) (padDigits k n2 ++ r2) := by
  induction k generalizing n1 n2 with
  | zero =>
    exfalso
    simp at h2
    omega
  | succ m ih =>
    have h10 : (0 : Nat) < 10 ^ m := Nat.pos_pow_of_pos m (by norm_num)
    have hd2 : n2 / 10 ^ m ≤ 9 := by
      have := (Nat.div_lt_iff_lt_mul h10).mpr
        (by rw [← pow_succ'] at *; exact h2)
      omega
    have hdd : n1 / 10 ^ m ≤ n2 / 10 ^ m := Nat.div_le_div_right (Nat.le_of_lt h)
    simp only [padDigits, List.cons_append]
    rcases Nat.lt_or_ge (n1 / 10 ^ m) (n2 / 10 ^ m) with hlt | hge
    · exact List.Lex.rel (decChar_lt _ _ hlt hd2)
    · have heq : n1 / 10 ^ m = n2 / 10 ^ m := by omega
      rw [heq]
      refine listLt_cons _ _ _ (ih _ _ ?_ (Nat.mod_lt _ h10))
      have q1 := Nat.div_add_mod n1 (10 ^ m)
      have q2 := Nat.div_add_mod n2 (10 ^ m)
      rw [heq] at q1
      omega

theorem padStep (k n1 n2 : Nat) (r1 r2 : List Char) (h2 : n2 < 10 ^ k)
    (h : n1 < n2 ∨ (n1 = n2 ∧ List.Lex (· < ·) r1 r2)) :
    List.Lex (· < ·) (padDigits k n1 ++ r1) (padDigits k n2 ++ r2) := by
  rcases h with h | ⟨he, hr⟩
  · exact padDigits_lt k n1 n2 r1 r2 h h2
  · rw [he]
    exact listLt_append_left _ _ _ hr

end Zsdt
namespace Zsdt

theorem isoRep_data (t : Nat) (hmax : t < isoMsLimit) :
    (replaceColonDot (toISOString t)).data =
      padDigits 4 (yearOf (t / msPerDay)) ++ '-' ::
        (padDigits 2 (monthOf (t / msPerDay)) ++ '-' ::
        (padDigits 2 (dayOf (t / msPerDay)) ++ 'T' ::
        (padDigits 2 (hourOf t) ++ '-' ::
        (padDigits 2 (minuteOf t) ++ '-' ::
        (padDigits 2 (secondOf t) ++ '-' ::
        (padDigits 3 (millisOf t) ++ ['Z'])))))) := by
  have p4 : (10 : Nat) ^ 4 = 10000 := by norm_num
  have p2 : (10 : Nat) ^ 2 = 100 := by norm_num
  have p3 : (10 : Nat) ^ 3 = 1000 := by norm_num
  have hy : yearOf (t / msPerDay) < 10 ^ 4 := by
    have := year_le t hmax; omega
  have hmo : monthOf (t / msPerDay) < 10 ^ 2 := by
    have := month_le (t / msPerDay); omega
  have hd : dayOf (t / msPerDay) < 10 ^ 2 := by
    have := day_le (t / msPerDay); omega
  have hh : hourOf t < 10 ^ 2 := by have := hour_le t; omega
  have hmi : minuteOf t < 10 ^ 2 := by have := minute_le t; omega
  have hs : secondOf t < 10 ^ 2 := by have := second_le t; omega
  have hms : millisOf t < 10 ^ 3 := by have := millis_le t; omega
  show (isoChars t).map (fun c => if c = ':' ∨ c = '.' then '-' else c) = _
  unfold isoChars
  simp only [List.map_append, List.map_cons, List.map_nil]
  rw [padDigits_map_replace 4 _ hy, padDigits_map_replace 2 _ hmo,
    padDigits_map_replace 2 _ hd, padDigits_map_replace 2 _ hh,
    padDigits_map_replace 2 _ hmi, padDigits_map_replace 2 _ hs,
    padDigits_map_replace 3 _ hms]
  simp

theorem fileName_lt (t1 t2 : Nat) (h : t1 < t2) (hmax : t2 < isoMsLimit) :
    generateFileName t1 < generateFileName t2 := by
  have hmax1 : t1 < isoMsLimit := lt_trans h hmax
  have p4 : (10 : Nat) ^ 4 = 10000 := by norm_num
  have p2 : (10 : Nat) ^ 2 = 100 := by norm_num
  have p3 : (10 : Nat) ^ 3 = 1000 := by norm_num
  have hy2 : yearOf (t2 / msPerDay) < 10 ^ 4 := by
    have := year_le t2 hmax; omega
  have hmo2 : monthOf (t2 / msPerDay) < 10 ^ 2 := by
    have := month_le (t2 / msPerDay); omega
  have hd2 : dayOf (t2 / msPerDay) < 10 ^ 2 := by
    have := day_le (t2 / msPerDay); omega
  have hh2 : hourOf t2 < 10 ^ 2 := by have := hour_le t2; omega
  have hmi2 : minuteOf t2 < 10 ^ 2 := by have := minute_le t2; omega
  have hs2 : secondOf t2 < 10 ^ 2 := by have := second_le t2; omega
  have hms2 : millisOf t2 < 10 ^ 3 := by have := millis_le t2; omega
  rw [String.lt_iff_toList_lt]
  show List.Lex (· < ·) (generateFileName t1).data (generateFileName t2).data
  unfold generateFileName
  simp only [String.data_append]
  rw [List.append_assoc, List.append_assoc]
  apply listLt_append_left
  rw [isoRep_data t1 hmax1, isoRep_data t2 hmax]
  simp only [List.append_assoc, List.cons_append, List.nil_append]
  have h7 := fields_lex_of_lt t1 t2 h
  refine padStep _ _ _ _ _ hy2 ?_
  rcases h7 with hY | ⟨hY, h6⟩
  · exact Or.inl hY
  refine Or.inr ⟨hY, listLt_cons _ _ _ ?_⟩
  refine padStep _ _ _ _ _ hmo2 ?_
  rcases h6 with hM | ⟨hM, h5⟩
  · exact Or.inl hM
  refine Or.inr ⟨hM, listLt_cons _ _ _ ?_⟩
  refine padStep _ _ _ _ _ hd2 ?_
  rcases h5 with hD | ⟨hD, h4⟩
  · exact Or.inl hD
  refine Or.inr ⟨hD, listLt_cons _ _ _ ?_⟩
  refine padStep _ _ _ _ _ hh2 ?_
  rcases h4 with hH | ⟨hH, h3⟩
  · exact Or.inl hH
  refine Or.inr ⟨hH, listLt_cons _ _ _ ?_⟩
  refine padStep _ _ _ _ _ hmi2 ?_
  rcases h3 with hMi | ⟨hMi, h2s⟩
  · exact Or.inl hMi
  refine Or.inr ⟨hMi, listLt_cons _ _ _ ?_⟩
  refine padStep _ _ _ _ _ hs2 ?_
  rcases h2s with hS | ⟨hS, h1ms⟩
  · exact Or.inl hS
  refine Or.inr ⟨hS, listLt_cons _ _ _ ?_⟩
  exact padStep _ _ _ _ _ hms2 (Or.inl h1ms)

end Zsdt
namespace Zsdt

/-- Claim C9: every generated file name has the exact form
`products-<ISO-8601 timestamp with ':' and '.' replaced by '-'>.zstd`, and
for strictly increasing clock instants (within the four-digit-year range
of `toISOString`, 1970..9999) the generated names are strictly increasing
in lexical order. -/
theorem c9_generateFileName_monotone (t1 t2 : Nat) (h : t1 < t2)
    (hmax : t2 < isoMsLimit) :
    generateFileName t1
      = "products-" ++ replaceColonDot (toISOString t1) ++ ".zstd" ∧
    generateFileName t1 < generateFileName t2 :=
  ⟨rfl, fileName_lt t1 t2 h hmax⟩

theorem c9_generateFileName_monotone_witness :
    (0 : Nat) < 1 ∧ (1 : Nat) < isoMsLimit ∧
    (generateFileName 0
        = "products-" ++ replaceColonDot (toISOString 0) ++ ".zstd" ∧
      generateFileName 0 < generateFileName 1) :=
  ⟨by decide, by decide, c9_generateFileName_monotone 0 1 (by decide) (by decide)⟩

end Zsdt

/-! ## C1: the AWS Signature Version 4 computation -/
namespace Zsdt

theorem codeSort_eval (host amz hash : String) :
    sortHeaders jsStrLe
      ([("Host", host), ("Content-Type", "application/zstd")]
        ++ [("x-amz-date", amz), ("x-amz-content-sha256", hash)])
      = [("Content-Type", "application/zstd"), ("Host", host),
         ("x-amz-content-sha256", hash), ("x-amz-date", amz)] := rfl

theorem specSort_eval (host amz hash : String) :
    sortHeaders jsStrLeCI
      ([("Host", host), ("Content-Type", "application/zstd")]
        ++ [("x-amz-date", amz), ("x-amz-content-sha256", hash)])
      = [("Content-Type", "application/zstd"), ("Host", host),
         ("x-amz-content-sha256", hash), ("x-amz-date", amz)] := rfl

theorem joinNl_four (a b c d : String) :
    joinNl [a, b, c, d] ++ "\n"
      = String.join ([a, b, c, d].map (· ++ "\n")) := by
  apply String.ext
  show (((a ++ "\n" ++ b) ++ "\n" ++ c) ++ "\n" ++ d ++ "\n").data
    = (((("" ++ (a ++ "\n")) ++ (b ++ "\n")) ++ (c ++ "\n")) ++ (d ++ "\n")).data
  simp [List.append_assoc]

end Zsdt
namespace Zsdt

set_option maxRecDepth 100000

/-- Claim C1: on the header set the object-store signed delivery actually
passes (`Host`, `Content-Type: application/zstd`, plus the added
`x-amz-date` and `x-amz-content-sha256`), `getAwsSignature` produces, for
every payload, timestamp and key pair, exactly the Authorization header
prescribed by the spec's §4.2.3 algorithm (payload hash, case-insensitive
sorted lower-cased canonical headers, fixed
`dateStamp/us-east-1/s3/aws4_request` scope, four-step HMAC signing-key
chain, and the `AWS4-HMAC-SHA256 Credential=..., SignedHeaders=...,
Signature=...` header text); the hash and HMAC primitives themselves are
pinned byte-for-byte to published test vectors (the SHA-256 empty-payload
hash and the AWS-published signing-key derivation example). -/
theorem c1_sigv4_matches_spec :
    (∀ (payload : List Nat) (now : Nat) (host path accessKey secretKey : String),
      MinioUploadService.getAwsSignature "PUT" path ""
          [("Host", host), ("Content-Type", "application/zstd")]
          payload accessKey secretKey now
        = specSigV4 "PUT" path ""
          [("Host", host), ("Content-Type", "application/zstd")]
          payload accessKey secretKey now) ∧
    sha256Hex []
      = "e3b0c44298fc1c149afbf4c8996fb92427ae41e4649b934ca495991b7852b855" ∧
    hexOfBytes (hmacSha256 (hmacSha256 (hmacSha256 (hmacSha256
        (utf8Bytes ("AWS4" ++ "wJalrXUtnFEMI/K7MDENG+bPxRfiCYEXAMPLEKEY"))
        (utf8Bytes "20120215")) (utf8Bytes "us-east-1")) (utf8Bytes "iam"))
        (utf8Bytes "aws4_request"))
      = "f4780e2d9f65fa895f9c67b32ce1baf0b0d8a43505a000a1a9e090d414db404d" := by
  refine ⟨?_, by rfl, by rfl⟩
  intro payload now host path accessKey secretKey
  simp only [MinioUploadService.getAwsSignature, specSigV4]
  rw [codeSort_eval, specSort_eval]
  simp only [List.map]
  rw [joinNl_four]
  rfl

end Zsdt
